import Mathlib

set_option autoImplicit false

/-!
Shallow embedding of the WiFi network-management layer of G2-Service
(src/api/network.py).  External command execution is modelled by
environment records that supply the response of each call site
(Except String String: the stripped stdout on success, or the exception
text that _run_command raises on failure); every operation additionally
returns the list of argv vectors it issued, so that claims about which OS
commands run are statable.
-/

deriving instance DecidableEq for Except

/-- argv of one issued OS command (sudo-prefixed when the code passes
use_sudo=True to _run_command). -/
abbrev Cmd := List String

def nmcliPath : String := "/usr/bin/nmcli"

/-- self.wifi_interface (network.py:42). -/
def wifiInterfaceName : String := "wlan1"

/-- The whitespace set of Python str.strip and str.split. -/
def pyIsSpace (c : Char) : Bool :=
  c == ' ' || c == '\t' || c == '\n' || c == '\r' || c == '\x0b' || c == '\x0c'

/-- Python str.strip() with no argument, over the character list (so that
concrete inputs evaluate inside the kernel). -/
def pyStrip (s : String) : String :=
  String.mk (((s.data.dropWhile pyIsSpace).reverse.dropWhile pyIsSpace).reverse)

/-- Python truth test for a string: empty strings are falsy. -/
def pyIsEmpty (s : String) : Bool := s.data.isEmpty

/-- Python (c in s) for a single character. -/
def strHasChar (s : String) (c : Char) : Bool := s.data.contains c

/-- Helper of pySplitOn: split on every non-overlapping occurrence of sep,
left to right; the fuel argument (instantiated with the string length)
makes the recursion structural. -/
def pySplitAux (sep : List Char) : Nat → List Char → List (List Char)
  | _, [] => [[]]
  | 0, s => [s]
  | fuel+1, c :: rest =>
    if sep.isPrefixOf (c :: rest) && !sep.isEmpty then
      [] :: pySplitAux sep fuel ((c :: rest).drop sep.length)
    else
      match pySplitAux sep fuel rest with
      | [] => [[c]]
      | p :: ps => (c :: p) :: ps

/-- Python s.split(sep) for a non-empty separator. -/
def pySplitOn (s sep : String) : List String :=
  (pySplitAux sep.data s.data.length s.data).map String.mk

/-- Python substring test (sub in s): s.split(sub) has more than one piece
exactly when the non-empty pattern sub occurs in s. -/
def containsSub (s sub : String) : Bool := (pySplitOn s sub).length != 1

/-- Helper of pySplitWs: accumulate the current word (reversed). -/
def pyWordsAux : List Char → List Char → List (List Char)
  | [], acc => if acc.isEmpty then [] else [acc.reverse]
  | c :: rest, acc =>
    if pyIsSpace c then
      if acc.isEmpty then pyWordsAux rest [] else acc.reverse :: pyWordsAux rest []
    else pyWordsAux rest (c :: acc)

/-- Python s.split() with no argument: split on whitespace runs, dropping
empty pieces. -/
def pySplitWs (s : String) : List String := (pyWordsAux s.data []).map String.mk

/-- Python (int(s) if s.isdigit() else None), for ASCII digit strings. -/
def pyToNatQ (s : String) : Option Nat :=
  if !s.data.isEmpty && s.data.all Char.isDigit then
    some (s.data.foldl (fun n c => n * 10 + (c.toNat - 48)) 0)
  else none

/-- Python s.endswith(t). -/
def pyEndsWith (s t : String) : Bool := t.data.isSuffixOf s.data

/-- Python s[:-n] for n greater than 0: drop the last n characters. -/
def pyDropRight (s : String) (n : Nat) : String :=
  String.mk (s.data.take (s.data.length - n))

/-- Python list indexing l[i], raising IndexError when out of range. -/
def pyIndex (l : List String) (i : Nat) : Except String String :=
  match l.get? i with
  | some s => Except.ok s
  | none => Except.error "IndexError: list index out of range"

/-- Model for a WiFi network (network.py:15-21). -/
structure WiFiNetwork where
  ssid : String
  signal_strength : Option Nat := none
  security : Option String := none
  frequency : Option Nat := none
  is_hidden : Bool := false
deriving DecidableEq, Repr

/-- Separator choice for one nmcli scan line (network.py:148-155): split on
tab when a tab is present, else on colon; a line with neither separator is
skipped. -/
def splitScanLine (line : String) : Option (List String) :=
  if strHasChar line '\t' then some (pySplitOn line "\t")
  else if strHasChar line ':' then some (pySplitOn line ":")
  else none

/-- One iteration of the nmcli scan parsing loop (network.py:142-186);
none means the line is skipped. -/
def parseNmcliLine (line : String) : Option WiFiNetwork :=
  if pyIsEmpty (pyStrip line) then none
  else
    match splitScanLine line with
    | none => none
    | some parts =>
      if 4 ≤ parts.length then
        if pyIsEmpty (pyStrip (parts.getD 0 "")) || pyStrip (parts.getD 0 "") == "--" then none
        else
          some { ssid := pyStrip (parts.getD 0 "")
                 signal_strength := pyToNatQ (pyStrip (parts.getD 1 ""))
                 security :=
                   if !(pyIsEmpty (pyStrip (parts.getD 2 ""))) && !(pyStrip (parts.getD 2 "") == "--") then
                     some (pyStrip (parts.getD 2 ""))
                   else none
                 frequency :=
                   pyToNatQ
                     (if pyEndsWith (pyStrip (parts.getD 3 "")) " MHz" then
                        pyStrip (pyDropRight (pyStrip (parts.getD 3 "")) 4)
                      else pyStrip (parts.getD 3 ""))
                 is_hidden := false }
      else none

/-- The nmcli scan parsing loop over the whole output (network.py:140-189). -/
def parseNmcliOutput (output : String) : List WiFiNetwork :=
  (pySplitOn output "\n").filterMap parseNmcliLine

/-- The parse stage of _get_networks_nmcli including the empty-output early
return (network.py:136-189). -/
def nmcliListNetworks (output : String) : List WiFiNetwork :=
  if pyIsEmpty (pyStrip output) then [] else parseNmcliOutput output

/-- A well-formed nmcli scan line: it splits (tab preferred, else colon)
into at least 4 fields and carries a non-empty SSID other than the
placeholder "--".  A line of pure whitespace is never well formed (its
SSID field trims to empty); the first guard states this explicitly,
mirroring the blank-line skip at network.py:143. -/
def wellFormedLine (line : String) : Bool :=
  if pyIsEmpty (pyStrip line) then false
  else
    match splitScanLine line with
    | none => false
    | some parts =>
      if 4 ≤ parts.length then
        !(pyIsEmpty (pyStrip (parts.getD 0 ""))) && !(pyStrip (parts.getD 0 "") == "--")
      else false

lemma parseNmcliLine_isSome (line : String) :
    (parseNmcliLine line).isSome = wellFormedLine line := by
  unfold parseNmcliLine wellFormedLine
  split
  · rfl
  · cases h : splitScanLine line with
    | none => rfl
    | some parts =>
      simp only
      split
      · cases h1 : pyIsEmpty (pyStrip (parts.getD 0 "")) <;>
          cases h2 : (pyStrip (parts.getD 0 "") == "--") <;>
            simp [h1, h2]
      · rfl

lemma length_filterMap_eq_countP {α β : Type} (f : α → Option β) (l : List α) :
    (l.filterMap f).length = l.countP (fun a => (f a).isSome) := by
  induction l with
  | nil => rfl
  | cons x xs ih =>
    cases hf : f x <;>
      simp [List.filterMap_cons, hf, List.countP_cons, ih]

/-- C8: the nmcli scan parser is a total function over the raw output (so it
never raises on a malformed line, and every remaining line is still
processed), and the parsed list has exactly one record per well-formed
line: lines that do not split into at least 4 fields, or whose SSID is
empty or the placeholder "--", contribute nothing. -/
theorem nmcli_parse_length_eq_wellFormed_count (output : String) :
    (parseNmcliOutput output).length
      = (pySplitOn output "\n").countP wellFormedLine := by
  unfold parseNmcliOutput
  rw [length_filterMap_eq_countP]
  apply List.countP_congr
  intro a _
  simp [parseNmcliLine_isSome a]

/-- Parser state of the iwlist fallback loop (network.py:203-204). -/
structure IwState where
  networks : List WiFiNetwork
  currentSsid : Option String
deriving DecidableEq, Repr

/-- Update the first network in the list whose ssid matches: the for-loop
with break at network.py:219-222. -/
def setSignalFirst (nets : List WiFiNetwork) (s : String) (q : Nat) : List WiFiNetwork :=
  match nets with
  | [] => []
  | n :: rest =>
    if n.ssid == s then { n with signal_strength := some q } :: rest
    else n :: setSignalFirst rest s q

/-- One iteration of the iwlist fallback parsing loop (network.py:206-222).
The only possible exception is the IndexError at network.py:210, reached
when a line contains ESSID: and a double quote but not the exact token
ESSID:-followed-by-a-quote. -/
def iwlistStep (st : IwState) (line0 : String) : Except String IwState :=
  let line := pyStrip line0
  if containsSub line "ESSID:" then
    match (if strHasChar line '"' then
            match (pySplitOn line "ESSID:\"").get? 1 with
            | none => Except.error "IndexError: list index out of range"
            | some rest => Except.ok ((pySplitOn rest "\"").getD 0 rest)
          else Except.ok "") with
    | Except.error e => Except.error e
    | Except.ok ssid =>
      if !(pyIsEmpty ssid) then
        Except.ok { networks := st.networks ++ [{ ssid := ssid }], currentSsid := some ssid }
      else Except.ok st
  else
    match st.currentSsid with
    | some cs =>
      if containsSub line "Quality=" then
        let quality := pyStrip ((pySplitOn ((pySplitOn line "Quality=").getD 1 "") "/").getD 0 "")
        match pyToNatQ quality with
        | some q => Except.ok { st with networks := setSignalFirst st.networks cs q }
        | none => Except.ok st
      else Except.ok st
    | none => Except.ok st

/-- The iwlist parse stage of _get_networks_fallback (network.py:197-225). -/
def parseIwlist (output : String) : Except String (List WiFiNetwork) :=
  ((pySplitOn output "\n").foldlM iwlistStep { networks := [], currentSsid := none }).map
    IwState.networks

/-- The fixed placeholder networks returned when no scan tool works
(network.py:230-252). -/
def mockNetworks : List WiFiNetwork :=
  [ { ssid := "TestNetwork_1", signal_strength := some 85, security := some "WPA2",
      frequency := some 2412, is_hidden := false },
    { ssid := "TestNetwork_2", signal_strength := some 72, security := some "WPA3",
      frequency := some 2437, is_hidden := false },
    { ssid := "GuestNetwork", signal_strength := some 60, security := none,
      frequency := some 2462, is_hidden := false } ]

/-- _get_networks_fallback (network.py:195-254): any failure of the iwlist
command or of its parsing is caught by the except at network.py:227 and the
placeholder list is returned, so this function as a whole never raises. -/
def getNetworksFallback (iwlist : Except String String) : List WiFiNetwork :=
  match iwlist with
  | Except.error _ => mockNetworks
  | Except.ok out =>
    match parseIwlist out with
    | Except.ok nets => nets
    | Except.error _ => mockNetworks

/-- Environment of one WiFi scan: availability of wlan1 (the guard at
network.py:97) and the responses of the three external commands a scan can
issue. -/
structure ScanEnv where
  wlan1Avail : Bool
  nmcliVersion : Except String String
  nmcliList : Except String String
  iwlist : Except String String
deriving Repr

def cmdIpLinkShowWlan1 : Cmd := ["/sbin/ip", "link", "show", "wlan1"]

def cmdNmcliVersion : Cmd := [nmcliPath, "--version"]

def cmdScanList : Cmd := [nmcliPath, "-t", "-f", "SSID,SIGNAL,SECURITY,FREQ", "dev", "wifi", "list"]

def cmdIwlistScan : Cmd := ["/sbin/iwlist", "scan"]

/-- The primary branch of get_visible_networks: the wlan1 guard followed by
_get_networks_nmcli (network.py:95-102 and 111-193), with the list of
issued commands. -/
def nmcliScan (env : ScanEnv) : Except String (List WiFiNetwork) × List Cmd :=
  if env.wlan1Avail then
    match env.nmcliVersion with
    | Except.error e => (Except.error e, [cmdIpLinkShowWlan1, cmdNmcliVersion])
    | Except.ok _ =>
      match env.nmcliList with
      | Except.error e => (Except.error e, [cmdIpLinkShowWlan1, cmdNmcliVersion, cmdScanList])
      | Except.ok out =>
        (Except.ok (nmcliListNetworks out), [cmdIpLinkShowWlan1, cmdNmcliVersion, cmdScanList])
  else
    (Except.error "wlan1 interface not available. Please ensure wlan1 is properly configured.",
     [cmdIpLinkShowWlan1])

/-- get_visible_networks (network.py:88-109).  When the primary branch
fails for any reason, the fallback runs; since _get_networks_fallback never
raises, the re-raise at network.py:109 is unreachable and the result is
always ok. -/
def getVisibleNetworksT (env : ScanEnv) : Except String (List WiFiNetwork) × List Cmd :=
  match nmcliScan env with
  | (Except.ok nets, tr) => (Except.ok nets, tr)
  | (Except.error _, tr) =>
    (Except.ok (getNetworksFallback env.iwlist), tr ++ [cmdIwlistScan])

/-- The list get_visible_networks returns (it always returns one). -/
def scanList (env : ScanEnv) : List WiFiNetwork :=
  match (getVisibleNetworksT env).1 with
  | Except.ok nets => nets
  | Except.error _ => []

lemma getVisibleNetworksT_ok (env : ScanEnv) :
    (getVisibleNetworksT env).1 = Except.ok (scanList env) := by
  unfold scanList getVisibleNetworksT
  rcases h : nmcliScan env with ⟨res, tr⟩
  cases res <;> simp

/-- C1: when the primary nmcli scan fails (for any reason, including the
tool being absent) and the secondary iwlist scan also fails,
get_visible_networks does not raise: it returns exactly the fixed
3-entry placeholder list, whose SSIDs are TestNetwork_1, TestNetwork_2 and
GuestNetwork in that order. -/
theorem scan_total_failure_returns_placeholder (env : ScanEnv) (e1 e2 : String)
    (h1 : (nmcliScan env).1 = Except.error e1)
    (h2 : env.iwlist = Except.error e2) :
    (getVisibleNetworksT env).1 = Except.ok mockNetworks ∧
      mockNetworks.map WiFiNetwork.ssid = ["TestNetwork_1", "TestNetwork_2", "GuestNetwork"] := by
  refine ⟨?_, rfl⟩
  unfold getVisibleNetworksT
  rcases hp : nmcliScan env with ⟨res, tr⟩
  rw [hp] at h1
  simp only at h1
  subst h1
  simp [getNetworksFallback, h2]

/-- A concrete environment in which every scan tool fails. -/
def scanEnvFail : ScanEnv :=
  { wlan1Avail := true
    nmcliVersion := Except.error "NetworkManager (nmcli) not found"
    nmcliList := Except.error "NetworkManager (nmcli) not found"
    iwlist := Except.error "NetworkManager command failed: iwlist: not found" }

/-- Witness for C1 at a concrete environment. -/
theorem scan_total_failure_returns_placeholder_witness :
    (getVisibleNetworksT scanEnvFail).1 = Except.ok mockNetworks ∧
      mockNetworks.map WiFiNetwork.ssid = ["TestNetwork_1", "TestNetwork_2", "GuestNetwork"] :=
  scan_total_failure_returns_placeholder scanEnvFail
    "NetworkManager (nmcli) not found"
    "NetworkManager command failed: iwlist: not found" rfl rfl

lemma setSignalFirst_is_hidden (nets : List WiFiNetwork) (s : String) (q : Nat)
    (h : ∀ n ∈ nets, n.is_hidden = false) :
    ∀ n ∈ setSignalFirst nets s q, n.is_hidden = false := by
  induction nets with
  | nil => intro n hn; simp [setSignalFirst] at hn
  | cons x xs ih =>
    intro n hn
    unfold setSignalFirst at hn
    split at hn
    · rcases List.mem_cons.mp hn with h1 | h1
      · subst h1
        exact h x (List.mem_cons_self x xs)
      · exact h n (List.mem_cons_of_mem x h1)
    · rcases List.mem_cons.mp hn with h1 | h1
      · subst h1
        exact h n (List.mem_cons_self n xs)
      · exact ih (fun m hm => h m (List.mem_cons_of_mem x hm)) n h1

lemma iwlistStep_is_hidden (st : IwState) (line : String) (st' : IwState)
    (h : iwlistStep st line = Except.ok st')
    (inv : ∀ n ∈ st.networks, n.is_hidden = false) :
    ∀ n ∈ st'.networks, n.is_hidden = false := by
  unfold iwlistStep at h
  simp only at h
  split at h
  · split at h
    · exact absurd h (by simp)
    · split at h
      · injection h with h
        subst h
        intro n hn
        rcases List.mem_append.mp hn with h1 | h1
        · exact inv n h1
        · simp only [List.mem_singleton] at h1
          subst h1
          rfl
      · injection h with h
        subst h
        exact inv
  · split at h
    · split at h
      · split at h
        · injection h with h
          subst h
          exact setSignalFirst_is_hidden _ _ _ inv
        · injection h with h
          subst h
          exact inv
      · injection h with h
        subst h
        exact inv
    · injection h with h
      subst h
      exact inv

lemma foldlM_iwlist_is_hidden (lines : List String) (st : IwState) (st' : IwState)
    (h : lines.foldlM iwlistStep st = Except.ok st')
    (inv : ∀ n ∈ st.networks, n.is_hidden = false) :
    ∀ n ∈ st'.networks, n.is_hidden = false := by
  induction lines generalizing st with
  | nil =>
    simp only [List.foldlM, pure, Except.pure, Except.ok.injEq] at h
    subst h
    exact inv
  | cons l ls ih =>
    simp only [List.foldlM, bind, Except.bind] at h
    cases hstep : iwlistStep st l with
    | error e => rw [hstep] at h; exact absurd h (by simp)
    | ok st1 =>
      rw [hstep] at h
      exact ih st1 h (iwlistStep_is_hidden st l st1 hstep inv)

lemma parseIwlist_is_hidden (out : String) (nets : List WiFiNetwork)
    (h : parseIwlist out = Except.ok nets) :
    ∀ n ∈ nets, n.is_hidden = false := by
  unfold parseIwlist at h
  cases hf : (pySplitOn out "\n").foldlM iwlistStep { networks := [], currentSsid := none } with
  | error e => rw [hf] at h; exact absurd h (by simp [Except.map])
  | ok st =>
    rw [hf] at h
    simp only [Except.map, Except.ok.injEq] at h
    subst h
    exact foldlM_iwlist_is_hidden _ _ _ hf (by intro n hn; simp at hn)

lemma mockNetworks_is_hidden : ∀ n ∈ mockNetworks, n.is_hidden = false := by decide

lemma getNetworksFallback_is_hidden (iw : Except String String) :
    ∀ n ∈ getNetworksFallback iw, n.is_hidden = false := by
  cases iw with
  | error e => simpa [getNetworksFallback] using mockNetworks_is_hidden
  | ok out =>
    cases hp : parseIwlist out with
    | ok nets => simpa [getNetworksFallback, hp] using parseIwlist_is_hidden out nets hp
    | error e => simpa [getNetworksFallback, hp] using mockNetworks_is_hidden

lemma parseNmcliLine_is_hidden (line : String) (n : WiFiNetwork)
    (h : parseNmcliLine line = some n) : n.is_hidden = false := by
  unfold parseNmcliLine at h
  split at h
  · exact absurd h (by simp)
  · split at h
    · exact absurd h (by simp)
    · split at h
      · split at h
        · exact absurd h (by simp)
        · injection h with h
          subst h
          rfl
      · exact absurd h (by simp)

/-- C10: every WiFiNetwork record returned by any scan path (the nmcli
parse, the iwlist fallback parse, or the placeholder set) has is_hidden =
false, so a caller of the scan endpoint can never observe a hidden-marked
network. -/
theorem scan_records_never_hidden (env : ScanEnv) (n : WiFiNetwork)
    (h : n ∈ scanList env) : n.is_hidden = false := by
  unfold scanList getVisibleNetworksT at h
  rcases hp : nmcliScan env with ⟨res, tr⟩
  rw [hp] at h
  cases res with
  | ok nets =>
    simp only at h
    unfold nmcliScan at hp
    split at hp
    · split at hp
      · exact absurd (congrArg Prod.fst hp) (by simp)
      · split at hp
        · exact absurd (congrArg Prod.fst hp) (by simp)
        · have hnets := congrArg Prod.fst hp
          simp only [Except.ok.injEq] at hnets
          subst hnets
          unfold nmcliListNetworks at h
          split at h
          · exact absurd h (by simp)
          · unfold parseNmcliOutput at h
            rcases List.mem_filterMap.mp h with ⟨line, _, hline⟩
            exact parseNmcliLine_is_hidden line n hline
    · exact absurd (congrArg Prod.fst hp) (by simp)
  | error e =>
    simp only at h
    exact getNetworksFallback_is_hidden env.iwlist n h

/-- Witness for C10: the first placeholder record, as returned in the
all-tools-fail environment, is not hidden. -/
theorem scan_records_never_hidden_witness :
    ({ ssid := "TestNetwork_1", signal_strength := some 85, security := some "WPA2",
       frequency := some 2412, is_hidden := false } : WiFiNetwork) ∈ scanList scanEnvFail ∧
      ({ ssid := "TestNetwork_1", signal_strength := some 85, security := some "WPA2",
         frequency := some 2412, is_hidden := false } : WiFiNetwork).is_hidden = false :=
  ⟨by decide, scan_records_never_hidden scanEnvFail _ (by decide)⟩

/-- One wifi row of nmcli device status (network.py:286-294). -/
structure AdapterStatus where
  device : String
  devType : String
  state : String
  connection : String
deriving DecidableEq, Repr

/-- One iteration of the device-status loop (network.py:282-294); the first
line with at least 4 colon-fields whose second field is wifi is kept and
the loop breaks.  An empty fourth field is replaced by the sentinel none
(the string, network.py:292). -/
def parseAdapterLine (line : String) : Option AdapterStatus :=
  if pyIsEmpty (pyStrip line) then none
  else
    let parts := pySplitOn line ":"
    if 4 ≤ parts.length && (parts.getD 1 "" == "wifi") then
      some { device := parts.getD 0 ""
             devType := parts.getD 1 ""
             state := parts.getD 2 ""
             connection := if pyIsEmpty (parts.getD 3 "") then "none" else parts.getD 3 "" }
    else none

/-- The adapter sub-query parse (network.py:282-294). -/
def parseAdapter (output : String) : Option AdapterStatus :=
  (pySplitOn output "\n").findSome? parseAdapterLine

/-- IP information (network.py:307). -/
structure IpInfo where
  ipv4 : Option String := none
  ipv6 : Option String := none
  mac : Option String := none
deriving DecidableEq, Repr

/-- One iteration of the address-dump loop of get_wifi_status
(network.py:309-327).  The IndexError of taking the first
whitespace-token after the matched marker (when nothing follows it)
propagates out of the loop and is caught by the sub-query except. -/
def ipAddrStep (info : IpInfo) (line0 : String) : Except String IpInfo :=
  let line := pyStrip line0
  if containsSub line "inet " && !(containsSub line "inet6") then
    match pyIndex (pySplitOn line "inet ") 1 with
    | Except.error e => Except.error e
    | Except.ok rest =>
      match pyIndex (pySplitWs rest) 0 with
      | Except.error e => Except.error e
      | Except.ok ipPart =>
        if strHasChar ipPart '/' then
          Except.ok { info with ipv4 := some ((pySplitOn ipPart "/").getD 0 ipPart) }
        else Except.ok info
  else if containsSub line "inet6 " then
    match pyIndex (pySplitOn line "inet6 ") 1 with
    | Except.error e => Except.error e
    | Except.ok rest =>
      match pyIndex (pySplitWs rest) 0 with
      | Except.error e => Except.error e
      | Except.ok ipPart =>
        if strHasChar ipPart '/' then
          Except.ok { info with ipv6 := some ((pySplitOn ipPart "/").getD 0 ipPart) }
        else Except.ok info
  else if containsSub line "link/ether " then
    match pyIndex (pySplitOn line "link/ether ") 1 with
    | Except.error e => Except.error e
    | Except.ok rest =>
      match pyIndex (pySplitWs rest) 0 with
      | Except.error e => Except.error e
      | Except.ok macPart => Except.ok { info with mac := some macPart }
  else Except.ok info

/-- The address-dump parse of get_wifi_status (network.py:307-327). -/
def parseIpAddr (output : String) : Except String IpInfo :=
  (pySplitOn output "\n").foldlM ipAddrStep {}

/-- The aggregated signal findings of the third sub-query
(network.py:343-353); present only when at least one purely numeric line
was seen. -/
structure SignalBase where
  current_signal : Nat
  available_networks : Nat
  signal_range : String
deriving DecidableEq, Repr

def listMaxNat : List Nat → Nat
  | [] => 0
  | h :: t => t.foldl Nat.max h

def listMinNat : List Nat → Nat
  | [] => 0
  | h :: t => t.foldl Nat.min h

/-- The numeric signal lines of nmcli -f SIGNAL output (network.py:343-346):
a line contributes exactly when its trimmed text is non-empty and purely
numeric, which is when pyToNatQ succeeds. -/
def parseSignals (output : String) : List Nat :=
  (pySplitOn output "\n").filterMap (fun l => pyToNatQ (pyStrip l))

/-- One ACTIVE:SIGNAL:SSID line of the fourth sub-query
(network.py:368-376): first line with at least 3 colon-fields whose first
field is yes; its signal is null when not purely numeric. -/
def parseActiveLine (line : String) : Option (Option Nat × String) :=
  if pyIsEmpty (pyStrip line) then none
  else
    let parts := pySplitOn line ":"
    if 3 ≤ parts.length && (parts.getD 0 "" == "yes") then
      some (pyToNatQ (parts.getD 1 ""), parts.getD 2 "")
    else none

def parseActive (output : String) : Option (Option Nat × String) :=
  (pySplitOn output "\n").findSome? parseActiveLine

/-- The aggregate snapshot get_wifi_status builds (network.py:267-271 and
onward).  A field is none when its sub-query failed or found nothing; the
current-connection pair is present only when the fourth sub-query ran and
matched an active row. -/
structure StatusInfo where
  adapter : Option AdapterStatus
  ip : Option IpInfo
  signalBase : Option SignalBase
  currentConnectionSignal : Option (Option Nat)
  currentSsid : Option String
deriving DecidableEq, Repr

/-- Environment of one get_wifi_status call: the guard results and the four
sub-query command responses. -/
structure StatusEnv where
  wlan1Avail : Bool
  deviceStatus : Except String String
  wlan1Avail2 : Bool
  ipAddr : Except String String
  signalList : Except String String
  activeList : Except String String
deriving Repr

def cmdDeviceStatus : Cmd :=
  [nmcliPath, "-t", "-f", "DEVICE,TYPE,STATE,CONNECTION", "device", "status"]

def cmdIpAddrShow (dev : String) : Cmd := ["/sbin/ip", "addr", "show", dev]

def cmdSignalList : Cmd := [nmcliPath, "-t", "-f", "SIGNAL", "dev", "wifi", "list"]

def cmdActiveList : Cmd := [nmcliPath, "-t", "-f", "ACTIVE,SIGNAL,SSID", "dev", "wifi", "list"]

/-- The adapter field computed by the first sub-query (its failure is caught
at network.py:296-297, leaving the field empty). -/
def statusAdapter (env : StatusEnv) : Option AdapterStatus :=
  match env.deviceStatus with
  | Except.ok out => parseAdapter out
  | Except.error _ => none

/-- status_info adapter device, defaulting to the configured interface
(network.py:300). -/
def statusDeviceName (env : StatusEnv) : String :=
  match statusAdapter env with
  | some a => a.device
  | none => wifiInterfaceName

/-- The ip field computed by the second sub-query (guard re-check at
network.py:303; any failure is caught at network.py:331-332, leaving the
field empty). -/
def statusIp (env : StatusEnv) : Option IpInfo :=
  if env.wlan1Avail2 then
    match env.ipAddr with
    | Except.ok out =>
      match parseIpAddr out with
      | Except.ok info => some info
      | Except.error _ => none
    | Except.error _ => none
  else none

/-- The signal_info base computed by the third sub-query (failure caught at
network.py:355-356; also empty when no numeric line was seen,
network.py:348). -/
def statusSignalBase (env : StatusEnv) : Option SignalBase :=
  match env.signalList with
  | Except.ok out =>
    match parseSignals out with
    | [] => none
    | sigs =>
      some { current_signal := listMaxNat sigs
             available_networks := sigs.length
             signal_range :=
               toString (listMinNat sigs) ++ "% - " ++ toString (listMaxNat sigs) ++ "%" }
  | Except.error _ => none

/-- Whether the fourth sub-query runs (network.py:360): the adapter row was
found and its connection is not the sentinel none. -/
def statusActiveCond (env : StatusEnv) : Bool :=
  match statusAdapter env with
  | some a => !(a.connection == "none")
  | none => false

/-- The current-connection pair computed by the fourth sub-query (failure
caught at network.py:378-379). -/
def statusActive (env : StatusEnv) : Option (Option Nat × String) :=
  if statusActiveCond env then
    match env.activeList with
    | Except.ok out => parseActive out
    | Except.error _ => none
  else none

/-- get_wifi_status (network.py:256-386) with the list of issued commands.
It raises only when the initial wlan1 guard fails; every sub-query failure
is absorbed locally. -/
def getWifiStatus (env : StatusEnv) : Except String StatusInfo × List Cmd :=
  if env.wlan1Avail then
    (Except.ok
       { adapter := statusAdapter env
         ip := statusIp env
         signalBase := statusSignalBase env
         currentConnectionSignal := (statusActive env).map Prod.fst
         currentSsid := (statusActive env).map Prod.snd },
     [cmdIpLinkShowWlan1, cmdDeviceStatus, cmdIpLinkShowWlan1]
       ++ (if env.wlan1Avail2 then [cmdIpAddrShow (statusDeviceName env)] else [])
       ++ [cmdSignalList]
       ++ (if statusActiveCond env then [cmdActiveList] else []))
  else
    (Except.error "wlan1 interface not available. Please ensure wlan1 is properly configured.",
     [cmdIpLinkShowWlan1])

/-- C6: once the initial guard passes, get_wifi_status returns the aggregate
snapshot whatever the individual sub-queries do, and the failure of any one
sub-query only leaves its own field absent. -/
theorem wifi_status_best_effort (env : StatusEnv) (h : env.wlan1Avail = true) :
    (∃ st, (getWifiStatus env).1 = Except.ok st) ∧
      (∀ st, (getWifiStatus env).1 = Except.ok st →
        (∀ e, env.deviceStatus = Except.error e → st.adapter = none) ∧
        (∀ e, env.ipAddr = Except.error e → st.ip = none) ∧
        (env.wlan1Avail2 = false → st.ip = none) ∧
        (∀ e, env.signalList = Except.error e → st.signalBase = none) ∧
        (∀ e, env.activeList = Except.error e →
          st.currentConnectionSignal = none ∧ st.currentSsid = none)) := by
  constructor
  · exact ⟨{ adapter := statusAdapter env, ip := statusIp env,
             signalBase := statusSignalBase env,
             currentConnectionSignal := (statusActive env).map Prod.fst,
             currentSsid := (statusActive env).map Prod.snd },
           by simp [getWifiStatus, h]⟩
  · intro st hst
    simp only [getWifiStatus, h, if_true] at hst
    injection hst with hst
    subst hst
    refine ⟨?_, ?_, ?_, ?_, ?_⟩
    · intro e he; simp [statusAdapter, he]
    · intro e he; simp [statusIp, he]
    · intro h2; simp [statusIp, h2]
    · intro e he; simp [statusSignalBase, he]
    · intro e he
      constructor <;> · simp only [statusActive, he]; split <;> simp

/-- A concrete environment in which the guard passes and every sub-query of
get_wifi_status fails. -/
def statusEnvAllFail : StatusEnv :=
  { wlan1Avail := true
    deviceStatus := Except.error "NetworkManager command failed: device status failed"
    wlan1Avail2 := true
    ipAddr := Except.error "NetworkManager command timeout"
    signalList := Except.error "NetworkManager command failed: signal listing failed"
    activeList := Except.error "NetworkManager command failed: active listing failed" }

/-- Witness for C6: with every sub-query failing, the snapshot is still
returned and every field is absent. -/
theorem wifi_status_best_effort_witness :
    ∃ st, (getWifiStatus statusEnvAllFail).1 = Except.ok st ∧ st.adapter = none ∧
      st.ip = none ∧ st.signalBase = none ∧ st.currentConnectionSignal = none ∧
      st.currentSsid = none := by
  obtain ⟨⟨st, hst⟩, hprop⟩ := wifi_status_best_effort statusEnvAllFail rfl
  obtain ⟨h1, h2, _h3, h4, h5⟩ := hprop st hst
  exact ⟨st, hst, h1 _ rfl, h2 _ rfl, h4 _ rfl, (h5 _ rfl).1, (h5 _ rfl).2⟩

/-- Counterexample to C9: an address-dump inet line whose address token has
no /mask suffix records nothing — the ipv4 field stays absent instead of
receiving the address, contradicting the claim that such a line still
yields its address as the recorded value. -/
theorem ip_addr_no_mask_counterexample :
    parseIpAddr "inet 192.168.1.5 scope global" =
        Except.ok { ipv4 := none, ipv6 := none, mac := none } ∧
      parseIpAddr "inet 192.168.1.5 scope global" ≠
        Except.ok { ipv4 := some "192.168.1.5", ipv6 := none, mac := none } :=
  ⟨by decide, by decide⟩

/-- C9 amended: for every address-dump line matched by the prefix tokens
inet, inet6 or link/ether (with the elif precedence of network.py:313-325),
the parser takes the following whitespace-delimited token; an inet or inet6
value is recorded only when it carries a trailing /mask, in which case only
the value part is kept, and a line whose token lacks the /mask suffix
records nothing (the field is left unchanged); a link/ether line records
its token unconditionally. -/
theorem ip_addr_line_extraction (info : IpInfo) (line0 rest tok : String) :
    ((containsSub (pyStrip line0) "inet " && !containsSub (pyStrip line0) "inet6") = true →
      (pySplitOn (pyStrip line0) "inet ").get? 1 = some rest →
      (pySplitWs rest).get? 0 = some tok →
      ipAddrStep info line0 =
        Except.ok (if strHasChar tok '/' then
            { info with ipv4 := some ((pySplitOn tok "/").getD 0 tok) }
          else info)) ∧
    ((containsSub (pyStrip line0) "inet " && !containsSub (pyStrip line0) "inet6") = false →
      containsSub (pyStrip line0) "inet6 " = true →
      (pySplitOn (pyStrip line0) "inet6 ").get? 1 = some rest →
      (pySplitWs rest).get? 0 = some tok →
      ipAddrStep info line0 =
        Except.ok (if strHasChar tok '/' then
            { info with ipv6 := some ((pySplitOn tok "/").getD 0 tok) }
          else info)) ∧
    ((containsSub (pyStrip line0) "inet " && !containsSub (pyStrip line0) "inet6") = false →
      containsSub (pyStrip line0) "inet6 " = false →
      containsSub (pyStrip line0) "link/ether " = true →
      (pySplitOn (pyStrip line0) "link/ether ").get? 1 = some rest →
      (pySplitWs rest).get? 0 = some tok →
      ipAddrStep info line0 = Except.ok { info with mac := some tok }) := by
  refine ⟨?_, ?_, ?_⟩
  · intro hb hr ht
    simp only [ipAddrStep, hb, if_true, pyIndex, hr, ht]
    split <;> rfl
  · intro hb h6 hr ht
    simp only [ipAddrStep, hb, h6, if_true, Bool.false_eq_true, if_false, pyIndex, hr, ht]
    split <;> rfl
  · intro hb h6 he hr ht
    simp only [ipAddrStep, hb, h6, he, if_true, Bool.false_eq_true, if_false, pyIndex, hr, ht]

/-- Witness for the amended C9 at a concrete inet line carrying a mask. -/
theorem ip_addr_line_extraction_witness :
    ipAddrStep {} "  inet 10.0.0.7/8 brd 10.255.255.255" =
      Except.ok { ipv4 := some "10.0.0.7", ipv6 := none, mac := none } := by
  have h := (ip_addr_line_extraction {} "  inet 10.0.0.7/8 brd 10.255.255.255"
      "10.0.0.7/8 brd 10.255.255.255" "10.0.0.7/8").1 (by decide) (by decide) (by decide)
  exact h.trans (by decide)

/-- The dictionary shape the mutating operations return (a superset of the
keys; a key that an operation does not set is none / empty). -/
structure OpResult where
  success : Bool
  ssid : Option String := none
  message : String := ""
  status : String
  current_connection : Option (Option String) := none
  previous_connection : Option String := none
  previous_status : Option String := none
deriving DecidableEq, Repr

def withSudo (b : Bool) (c : Cmd) : Cmd := if b then "sudo" :: c else c

def cmdConnDown (elev : Bool) (name : String) : Cmd :=
  withSudo elev [nmcliPath, "connection", "down", name]

def cmdConnDelete (elev : Bool) (name : String) : Cmd :=
  withSudo elev [nmcliPath, "connection", "delete", name]

def cmdWifiConnect (ssid : String) : Cmd :=
  withSudo true [nmcliPath, "device", "wifi", "connect", ssid]

def cmdWifiConnectPw (ssid pw : String) : Cmd :=
  withSudo true [nmcliPath, "device", "wifi", "connect", ssid, "password", pw]

def cmdConnAdd (ssid : String) : Cmd :=
  withSudo true [nmcliPath, "connection", "add", "type", "wifi", "con-name", ssid,
                 "ifname", wifiInterfaceName, "ssid", ssid]

def cmdConnModify (ssid pw : String) : Cmd :=
  withSudo true [nmcliPath, "connection", "modify", ssid, "wifi-sec.key-mgmt", "wpa-psk",
                 "wifi-sec.psk", pw]

def cmdConnUp (ssid : String) : Cmd :=
  withSudo true [nmcliPath, "connection", "up", ssid]

/-- Whether an argv mutates OS network state: the nmcli connection
down/delete/add/modify/up and device wifi connect/rescan forms, and the
systemctl / pkill / hostapd commands of the AP controller; any number of
leading sudo tokens is ignored. -/
def isMutatingCmd (c : Cmd) : Bool :=
  let c0 := c.dropWhile (fun s => s == "sudo")
  (c0.getD 0 "" == nmcliPath &&
    ((c0.getD 1 "" == "connection" &&
       (c0.getD 2 "" == "down" || c0.getD 2 "" == "delete" || c0.getD 2 "" == "add" ||
        c0.getD 2 "" == "modify" || c0.getD 2 "" == "up")) ||
     (c0.getD 1 "" == "device" && c0.getD 2 "" == "wifi" &&
       (c0.getD 3 "" == "connect" || c0.getD 3 "" == "rescan")))) ||
  c0.getD 0 "" == "systemctl" || c0.getD 0 "" == "pkill" || c0.getD 0 "" == "hostapd"

def exceptOk {ε α : Type} : Except ε α → Bool
  | Except.ok _ => true
  | Except.error _ => false

lemma ipAddrShow_not_mutating (dev : String) : isMutatingCmd (cmdIpAddrShow dev) = false := rfl

lemma nmcliScan_cmds_not_mutating (env : ScanEnv) :
    (nmcliScan env).2.all (fun c => !isMutatingCmd c) = true := by
  unfold nmcliScan
  split
  · cases env.nmcliVersion with
    | error e =>
      exact (by decide :
        ([cmdIpLinkShowWlan1, cmdNmcliVersion].all (fun c => !isMutatingCmd c)) = true)
    | ok v =>
      cases env.nmcliList with
      | error e =>
        exact (by decide :
          ([cmdIpLinkShowWlan1, cmdNmcliVersion, cmdScanList].all
            (fun c => !isMutatingCmd c)) = true)
      | ok out =>
        exact (by decide :
          ([cmdIpLinkShowWlan1, cmdNmcliVersion, cmdScanList].all
            (fun c => !isMutatingCmd c)) = true)
  · decide

lemma scanT_cmds_not_mutating (env : ScanEnv) :
    (getVisibleNetworksT env).2.all (fun c => !isMutatingCmd c) = true := by
  unfold getVisibleNetworksT
  have htr := nmcliScan_cmds_not_mutating env
  rcases hp : nmcliScan env with ⟨res, tr⟩
  rw [hp] at htr
  cases res with
  | ok nets => simpa using htr
  | error e =>
    have h1 : (!isMutatingCmd cmdIwlistScan) = true := by decide
    simp only [List.all_append]
    simp only at htr
    simp [htr, h1]

lemma status_cmds_not_mutating (env : StatusEnv) :
    (getWifiStatus env).2.all (fun c => !isMutatingCmd c) = true := by
  unfold getWifiStatus
  split
  · cases h2 : env.wlan1Avail2 <;> cases h3 : statusActiveCond env <;>
      simp [h2, h3, List.all_append, ipAddrShow_not_mutating] <;> decide
  · decide

/-- Environment of one connect_to_network call: guard, embedded scan,
teardown and connect command responses, and the verification status read. -/
structure ConnectEnv where
  wlan1Avail : Bool
  scan : ScanEnv
  down : Except String String
  delete1 : Except String String
  delete2 : Except String String
  direct : Except String String
  manualAdd : Except String String
  manualModify : Except String String
  manualUp : Except String String
  statusEnv : StatusEnv
deriving Repr

/-- The except-branch result of connect_to_network (network.py:536-543). -/
def connectErrorResult (ssid e : String) : OpResult :=
  { success := false, ssid := some ssid, message := "Connection failed: " ++ e,
    status := "error" }

/-- The verification comparison of connect_to_network (network.py:513-534). -/
def verifyConnect (ssid : String) (st : StatusInfo) : OpResult :=
  if (st.adapter.map AdapterStatus.connection) == some ssid || st.currentSsid == some ssid then
    { success := true, ssid := some ssid,
      message := "Successfully connected to " ++ ssid, status := "connected" }
  else
    { success := false, ssid := some ssid,
      message := "Failed to connect to " ++ ssid, status := "disconnected",
      current_connection := some (st.adapter.map AdapterStatus.connection) }

/-- The settle-and-verify tail of connect_to_network (network.py:509-534);
get_wifi_status raises there only when its wlan1 guard fails, and that
exception is caught by the handler at network.py:536. -/
def connectVerifyStage (env : ConnectEnv) (ssid : String) : OpResult × List Cmd :=
  match getWifiStatus env.statusEnv with
  | (Except.ok st, tr) => (verifyConnect ssid st, tr)
  | (Except.error e, tr) => (connectErrorResult ssid e, tr)

/-- connect_to_network (network.py:409-543) with the list of issued
commands.  The teardown commands at network.py:434-445 and the extra delete
at network.py:453-457 are best-effort: their failures are swallowed.  The
settle delay at network.py:511 has no observable effect in the embedding. -/
def connectToNetwork (env : ConnectEnv) (ssid : String) (password : Option String) :
    OpResult × List Cmd :=
  if env.wlan1Avail then
    match getVisibleNetworksT env.scan with
    | (Except.error e, tr) => (connectErrorResult ssid e, cmdIpLinkShowWlan1 :: tr)
    | (Except.ok networks, tr) =>
      if networks.any (fun n => n.ssid == ssid) then
        match password with
        | some pw =>
          match env.direct with
          | Except.ok _ =>
            match connectVerifyStage env ssid with
            | (r, trv) =>
              (r, cmdIpLinkShowWlan1 :: tr
                    ++ [cmdConnDown false ssid, cmdConnDelete false ssid, cmdConnDelete false ssid,
                        cmdWifiConnectPw ssid pw] ++ trv)
          | Except.error e1 =>
            match env.manualAdd with
            | Except.error e2 =>
              (connectErrorResult ssid
                 ("Failed to connect to " ++ ssid ++ ": " ++ e1 ++ ", " ++ e2),
               cmdIpLinkShowWlan1 :: tr
                 ++ [cmdConnDown false ssid, cmdConnDelete false ssid, cmdConnDelete false ssid,
                     cmdWifiConnectPw ssid pw, cmdConnAdd ssid])
            | Except.ok _ =>
              match env.manualModify with
              | Except.error e2 =>
                (connectErrorResult ssid
                   ("Failed to connect to " ++ ssid ++ ": " ++ e1 ++ ", " ++ e2),
                 cmdIpLinkShowWlan1 :: tr
                   ++ [cmdConnDown false ssid, cmdConnDelete false ssid, cmdConnDelete false ssid,
                       cmdWifiConnectPw ssid pw, cmdConnAdd ssid, cmdConnModify ssid pw])
              | Except.ok _ =>
                match env.manualUp with
                | Except.error e2 =>
                  (connectErrorResult ssid
                     ("Failed to connect to " ++ ssid ++ ": " ++ e1 ++ ", " ++ e2),
                   cmdIpLinkShowWlan1 :: tr
                     ++ [cmdConnDown false ssid, cmdConnDelete false ssid, cmdConnDelete false ssid,
                         cmdWifiConnectPw ssid pw, cmdConnAdd ssid, cmdConnModify ssid pw,
                         cmdConnUp ssid])
                | Except.ok _ =>
                  match connectVerifyStage env ssid with
                  | (r, trv) =>
                    (r, cmdIpLinkShowWlan1 :: tr
                          ++ [cmdConnDown false ssid, cmdConnDelete false ssid,
                              cmdConnDelete false ssid, cmdWifiConnectPw ssid pw, cmdConnAdd ssid,
                              cmdConnModify ssid pw, cmdConnUp ssid] ++ trv)
        | none =>
          match env.direct with
          | Except.error e =>
            (connectErrorResult ssid e,
             cmdIpLinkShowWlan1 :: tr
               ++ [cmdConnDown false ssid, cmdConnDelete false ssid, cmdWifiConnect ssid])
          | Except.ok _ =>
            match connectVerifyStage env ssid with
            | (r, trv) =>
              (r, cmdIpLinkShowWlan1 :: tr
                    ++ [cmdConnDown false ssid, cmdConnDelete false ssid, cmdWifiConnect ssid]
                    ++ trv)
      else
        (connectErrorResult ssid
           ("Network \x27" ++ ssid ++ "\x27 not found in available networks"),
         cmdIpLinkShowWlan1 :: tr)
  else
    (connectErrorResult ssid
       "wlan1 interface not available. Please ensure wlan1 is properly configured.",
     [cmdIpLinkShowWlan1])

/-- C2: a connect request whose SSID is absent from the list returned by
the current scan fails with success false and a status of error or
not_found (the code uses error), and issues no OS-mutating command: only
the guard check and the read-only scan commands run before returning. -/
theorem connect_unknown_ssid_no_mutation (env : ConnectEnv) (ssid : String)
    (password : Option String)
    (habs : (scanList env.scan).all (fun n => !(n.ssid == ssid)) = true) :
    ((connectToNetwork env ssid password).1.success = false ∧
      ((connectToNetwork env ssid password).1.status = "error" ∨
        (connectToNetwork env ssid password).1.status = "not_found")) ∧
      (connectToNetwork env ssid password).2.all (fun c => !isMutatingCmd c) = true := by
  have hany : (scanList env.scan).any (fun n => n.ssid == ssid) = false := by
    rw [List.any_eq_false]
    intro x hx
    have hx2 := List.all_eq_true.mp habs x hx
    simpa using hx2
  unfold connectToNetwork
  cases hw : env.wlan1Avail with
  | false =>
    refine ⟨⟨rfl, Or.inl rfl⟩, ?_⟩
    exact (by decide : ([cmdIpLinkShowWlan1].all (fun c => !isMutatingCmd c)) = true)
  | true =>
    have hok := getVisibleNetworksT_ok env.scan
    have htrace := scanT_cmds_not_mutating env.scan
    rcases hv : getVisibleNetworksT env.scan with ⟨res, tr⟩
    rw [hv] at hok htrace
    simp only at hok htrace
    subst hok
    simp only [if_true, hany, Bool.false_eq_true, if_false]
    refine ⟨⟨rfl, Or.inl rfl⟩, ?_⟩
    simp only [List.all_cons, htrace, Bool.and_true]
    decide

/-- A connect environment whose scan falls back to the placeholder list. -/
def connectEnvBase : ConnectEnv :=
  { wlan1Avail := true
    scan := scanEnvFail
    down := Except.error "NetworkManager command failed: no connection"
    delete1 := Except.error "NetworkManager command failed: no connection"
    delete2 := Except.error "NetworkManager command failed: no connection"
    direct := Except.ok ""
    manualAdd := Except.error "NetworkManager command failed: add failed"
    manualModify := Except.error "NetworkManager command failed: modify failed"
    manualUp := Except.error "NetworkManager command failed: up failed"
    statusEnv := statusEnvAllFail }

/-- Witness for C2 at a concrete environment and an SSID absent from the
scan result. -/
theorem connect_unknown_ssid_no_mutation_witness :
    ((connectToNetwork connectEnvBase "NoSuchNetwork" none).1.success = false ∧
      ((connectToNetwork connectEnvBase "NoSuchNetwork" none).1.status = "error" ∨
        (connectToNetwork connectEnvBase "NoSuchNetwork" none).1.status = "not_found")) ∧
      (connectToNetwork connectEnvBase "NoSuchNetwork" none).2.all
        (fun c => !isMutatingCmd c) = true :=
  connect_unknown_ssid_no_mutation connectEnvBase "NoSuchNetwork" none (by decide)

lemma connect_result_reaches_verify (env : ConnectEnv) (ssid : String)
    (password : Option String)
    (hw : env.wlan1Avail = true)
    (hfound : (scanList env.scan).any (fun n => n.ssid == ssid) = true)
    (hcmd : (match password with
             | none => exceptOk env.direct
             | some _ => exceptOk env.direct ||
                 (exceptOk env.manualAdd && exceptOk env.manualModify &&
                  exceptOk env.manualUp)) = true) :
    (connectToNetwork env ssid password).1 = (connectVerifyStage env ssid).1 := by
  unfold connectToNetwork
  rw [hw]
  have hok := getVisibleNetworksT_ok env.scan
  rcases hv : getVisibleNetworksT env.scan with ⟨res, tr⟩
  rw [hv] at hok
  simp only at hok
  subst hok
  simp only [if_true, hfound]
  rcases hvv : connectVerifyStage env ssid with ⟨r, trv⟩
  cases password with
  | none =>
    cases hd : env.direct with
    | error e => rw [hd] at hcmd; exact absurd hcmd (by simp [exceptOk])
    | ok v => simp [hvv]
  | some pw =>
    cases hd : env.direct with
    | ok v => simp [hvv]
    | error e1 =>
      rw [hd] at hcmd
      simp only [exceptOk, Bool.false_or] at hcmd
      cases ha : env.manualAdd with
      | error e2 => rw [ha] at hcmd; exact absurd hcmd (by simp [exceptOk])
      | ok va =>
        cases hm : env.manualModify with
        | error e2 =>
          rw [ha, hm] at hcmd; exact absurd hcmd (by simp [exceptOk])
        | ok vm =>
          cases hu : env.manualUp with
          | error e2 =>
            rw [ha, hm, hu] at hcmd; exact absurd hcmd (by simp [exceptOk])
          | ok vu => simp [hvv]

/-- C4: a connect attempt that reaches the verification step reports
success true with status connected exactly when, in the status re-read
after the settle delay, the active connection name or the active SSID
equals the requested SSID; otherwise it reports success false. -/
theorem connect_verification_iff (env : ConnectEnv) (ssid : String)
    (password : Option String) (st : StatusInfo)
    (hw : env.wlan1Avail = true)
    (hfound : (scanList env.scan).any (fun n => n.ssid == ssid) = true)
    (hcmd : (match password with
             | none => exceptOk env.direct
             | some _ => exceptOk env.direct ||
                 (exceptOk env.manualAdd && exceptOk env.manualModify &&
                  exceptOk env.manualUp)) = true)
    (hst : (getWifiStatus env.statusEnv).1 = Except.ok st) :
    ((connectToNetwork env ssid password).1.success = true ↔
      (st.adapter.map AdapterStatus.connection = some ssid ∨ st.currentSsid = some ssid)) ∧
    (st.adapter.map AdapterStatus.connection = some ssid ∨ st.currentSsid = some ssid →
      (connectToNetwork env ssid password).1.status = "connected") := by
  have hres := connect_result_reaches_verify env ssid password hw hfound hcmd
  have hvv : (connectVerifyStage env ssid).1 = verifyConnect ssid st := by
    unfold connectVerifyStage
    rcases hg : getWifiStatus env.statusEnv with ⟨res2, tr2⟩
    rw [hg] at hst
    simp only at hst
    subst hst
    rfl
  rw [hres, hvv]
  unfold verifyConnect
  split
  · rename_i hcond
    simp only [Bool.or_eq_true, beq_iff_eq] at hcond
    exact ⟨⟨fun _ => hcond, fun _ => rfl⟩, fun _ => rfl⟩
  · rename_i hcond
    simp only [Bool.or_eq_true, beq_iff_eq] at hcond
    exact ⟨⟨fun hf => absurd hf Bool.false_ne_true, fun hp => absurd hp hcond⟩,
           fun hp => absurd hp hcond⟩

/-- A status environment reporting an active connection named
TestNetwork_1. -/
def statusEnvConnected : StatusEnv :=
  { wlan1Avail := true
    deviceStatus := Except.ok "wlan1:wifi:connected:TestNetwork_1"
    wlan1Avail2 := false
    ipAddr := Except.error "NetworkManager command timeout"
    signalList := Except.error "NetworkManager command failed: signal listing failed"
    activeList := Except.error "NetworkManager command failed: active listing failed" }

def connectEnvVerified : ConnectEnv :=
  { connectEnvBase with statusEnv := statusEnvConnected }

/-- Witness for C4: a verification read whose active connection name equals
the requested SSID yields success true with status connected. -/
theorem connect_verification_iff_witness :
    (connectToNetwork connectEnvVerified "TestNetwork_1" none).1.success = true ∧
      (connectToNetwork connectEnvVerified "TestNetwork_1" none).1.status = "connected" := by
  have h := connect_verification_iff connectEnvVerified "TestNetwork_1" none
    { adapter := some { device := "wlan1", devType := "wifi", state := "connected",
                        connection := "TestNetwork_1" },
      ip := none, signalBase := none, currentConnectionSignal := none, currentSsid := none }
    rfl (by decide) (by decide) (by decide)
  exact ⟨h.1.mpr (Or.inl (by decide)), h.2 (Or.inl (by decide))⟩

/-- Environment of one disconnect_network call (network.py:545-599): guard,
the first status read, the bring-down command and the verification status
read. -/
structure DisconnectEnv where
  wlan1Avail : Bool
  statusEnv : StatusEnv
  down : Except String String
  statusEnv2 : StatusEnv
deriving Repr

/-- disconnect_network (network.py:545-599) with the list of issued
commands.  The guard at network.py:562 treats a missing or empty current
connection, or the sentinel none, as already disconnected. -/
def disconnectNetwork (env : DisconnectEnv) : OpResult × List Cmd :=
  if env.wlan1Avail then
    match getWifiStatus env.statusEnv with
    | (Except.error e, tr) =>
      ({ success := false, message := "Disconnection failed: " ++ e, status := "error" },
       cmdIpLinkShowWlan1 :: tr)
    | (Except.ok st, tr) =>
      match st.adapter.map AdapterStatus.connection with
      | none =>
        ({ success := true, message := "No active connection to disconnect",
           status := "disconnected" }, cmdIpLinkShowWlan1 :: tr)
      | some cur =>
        if (pyIsEmpty cur || cur == "none") = true then
          ({ success := true, message := "No active connection to disconnect",
             status := "disconnected" }, cmdIpLinkShowWlan1 :: tr)
        else
          match env.down with
          | Except.error e =>
            ({ success := false, message := "Disconnection failed: " ++ e, status := "error" },
             cmdIpLinkShowWlan1 :: tr ++ [cmdConnDown true cur])
          | Except.ok _ =>
            match getWifiStatus env.statusEnv2 with
            | (Except.error e, tr2) =>
              ({ success := false, message := "Disconnection failed: " ++ e, status := "error" },
               cmdIpLinkShowWlan1 :: tr ++ [cmdConnDown true cur] ++ tr2)
            | (Except.ok st2, tr2) =>
              if ((st2.adapter.map AdapterStatus.connection) == some "none") = true then
                ({ success := true, previous_connection := some cur,
                   message := "Successfully disconnected from " ++ cur,
                   status := "disconnected" },
                 cmdIpLinkShowWlan1 :: tr ++ [cmdConnDown true cur] ++ tr2)
              else
                ({ success := false, message := "Failed to disconnect from " ++ cur,
                   status := "connected" },
                 cmdIpLinkShowWlan1 :: tr ++ [cmdConnDown true cur] ++ tr2)
  else
    ({ success := false,
       message := "Disconnection failed: wlan1 interface not available. Please ensure wlan1 is properly configured.",
       status := "error" }, [cmdIpLinkShowWlan1])

/-- C5: when no connection is active (the adapter row is missing or its
connection is the sentinel none), disconnect_network reports success with
status disconnected, and the issued commands are exactly the guard check
followed by the read-only status sub-queries — no mutating command runs. -/
theorem disconnect_idempotent_no_mutation (env : DisconnectEnv) (st : StatusInfo)
    (hw : env.wlan1Avail = true)
    (hst : (getWifiStatus env.statusEnv).1 = Except.ok st)
    (hnone : st.adapter.map AdapterStatus.connection = none ∨
             st.adapter.map AdapterStatus.connection = some "none") :
    (disconnectNetwork env).1 =
      { success := true, message := "No active connection to disconnect",
        status := "disconnected" } ∧
      (disconnectNetwork env).2.all (fun c => !isMutatingCmd c) = true := by
  unfold disconnectNetwork
  rw [hw]
  have htrace := status_cmds_not_mutating env.statusEnv
  rcases hg : getWifiStatus env.statusEnv with ⟨res, tr⟩
  rw [hg] at hst htrace
  simp only at hst htrace
  subst hst
  simp only [if_true]
  rcases hnone with h | h <;> rw [h] <;> refine ⟨rfl, ?_⟩ <;>
    · show ((cmdIpLinkShowWlan1 :: tr).all fun c => !isMutatingCmd c) = true
      simp only [List.all_cons, htrace, Bool.and_true]
      decide

/-- A disconnect environment whose status read shows no adapter row at
all (so no current connection). -/
def disconnectEnvIdle : DisconnectEnv :=
  { wlan1Avail := true
    statusEnv := statusEnvAllFail
    down := Except.error "NetworkManager command failed: no connection"
    statusEnv2 := statusEnvAllFail }

/-- Witness for C5 at a concrete already-disconnected environment. -/
theorem disconnect_idempotent_no_mutation_witness :
    (disconnectNetwork disconnectEnvIdle).1 =
      { success := true, message := "No active connection to disconnect",
        status := "disconnected" } ∧
      (disconnectNetwork disconnectEnvIdle).2.all (fun c => !isMutatingCmd c) = true :=
  disconnect_idempotent_no_mutation disconnectEnvIdle
    { adapter := none, ip := none, signalBase := none, currentConnectionSignal := none,
      currentSsid := none }
    rfl (by decide) (Or.inl (by decide))

/-- One saved-connection row (network.py:638-645). -/
structure SavedNetwork where
  name : String
  connType : String
  uuid : String
  timestamp : Option String
  autoconnect : Bool
deriving DecidableEq, Repr

/-- One iteration of the saved-connections loop (network.py:626-645): tab
separator when present, else colon; a row is kept when it has at least 2
fields and a wifi type; missing trailing fields default. -/
def parseSavedLine (line : String) : Option SavedNetwork :=
  if pyIsEmpty (pyStrip line) then none
  else
    let parts := if strHasChar line '\t' then pySplitOn line "\t" else pySplitOn line ":"
    if 2 ≤ parts.length &&
        (parts.getD 1 "" == "wifi" || parts.getD 1 "" == "802-11-wireless") then
      some { name := parts.getD 0 ""
             connType := parts.getD 1 ""
             uuid := if 2 < parts.length then parts.getD 2 "" else ""
             timestamp := if 3 < parts.length then some (parts.getD 3 "") else none
             autoconnect := if 4 < parts.length then parts.getD 4 "" == "yes" else true }
    else none

def cmdConnShow : Cmd :=
  [nmcliPath, "-t", "-f", "NAME,TYPE,UUID,TIMESTAMP-REAL,AUTOCONNECT", "connection", "show"]

/-- Environment of one get_saved_networks call (network.py:601-652). -/
structure SavedEnv where
  wlan1Avail : Bool
  connShow : Except String String
deriving Repr

/-- get_saved_networks (network.py:601-652) with issued commands; unlike
the scan chain it raises on guard or command failure. -/
def getSavedNetworks (env : SavedEnv) : Except String (List SavedNetwork) × List Cmd :=
  if env.wlan1Avail then
    match env.connShow with
    | Except.error e => (Except.error e, [cmdIpLinkShowWlan1, cmdConnShow])
    | Except.ok out =>
      (Except.ok ((pySplitOn out "\n").filterMap parseSavedLine),
       [cmdIpLinkShowWlan1, cmdConnShow])
  else
    (Except.error "wlan1 interface not available. Please ensure wlan1 is properly configured.",
     [cmdIpLinkShowWlan1])

/-- Environment of one delete_saved_network call (network.py:654-723). -/
structure DeleteEnv where
  wlan1Avail : Bool
  savedEnv : SavedEnv
  statusEnv : StatusEnv
  down : Except String String
  delete : Except String String
  savedEnv2 : SavedEnv
deriving Repr

/-- delete_saved_network (network.py:654-723) with issued commands.  The
disconnect-if-connected block (network.py:682-690) is fully best-effort:
a failing status read or bring-down is swallowed. -/
def deleteSavedNetwork (env : DeleteEnv) (ssid : String) : OpResult × List Cmd :=
  if env.wlan1Avail then
    match (getSavedNetworks env.savedEnv).1 with
    | Except.error e =>
      ({ success := false, ssid := some ssid, message := "Deletion failed: " ++ e,
         status := "error" }, cmdIpLinkShowWlan1 :: (getSavedNetworks env.savedEnv).2)
    | Except.ok saved =>
      if (saved.any fun n => n.name == ssid) = true then
        match env.delete with
        | Except.error e =>
          ({ success := false, ssid := some ssid, message := "Deletion failed: " ++ e,
             status := "error" },
           cmdIpLinkShowWlan1 :: (getSavedNetworks env.savedEnv).2
             ++ (getWifiStatus env.statusEnv).2
             ++ (match (getWifiStatus env.statusEnv).1 with
                 | Except.ok st =>
                   if ((st.adapter.map AdapterStatus.connection) == some ssid) = true then
                     [cmdConnDown true ssid]
                   else []
                 | Except.error _ => [])
             ++ [cmdConnDelete true ssid])
        | Except.ok _ =>
          match (getSavedNetworks env.savedEnv2).1 with
          | Except.error e =>
            ({ success := false, ssid := some ssid, message := "Deletion failed: " ++ e,
               status := "error" },
             cmdIpLinkShowWlan1 :: (getSavedNetworks env.savedEnv).2
               ++ (getWifiStatus env.statusEnv).2
               ++ (match (getWifiStatus env.statusEnv).1 with
                   | Except.ok st =>
                     if ((st.adapter.map AdapterStatus.connection) == some ssid) = true then
                       [cmdConnDown true ssid]
                     else []
                   | Except.error _ => [])
               ++ [cmdConnDelete true ssid] ++ (getSavedNetworks env.savedEnv2).2)
          | Except.ok updated =>
            if (updated.any fun n => n.name == ssid) = true then
              ({ success := false, ssid := some ssid,
                 message := "Failed to delete saved network \x27" ++ ssid ++ "\x27",
                 status := "error" },
               cmdIpLinkShowWlan1 :: (getSavedNetworks env.savedEnv).2
                 ++ (getWifiStatus env.statusEnv).2
                 ++ (match (getWifiStatus env.statusEnv).1 with
                     | Except.ok st =>
                       if ((st.adapter.map AdapterStatus.connection) == some ssid) = true then
                         [cmdConnDown true ssid]
                       else []
                     | Except.error _ => [])
                 ++ [cmdConnDelete true ssid] ++ (getSavedNetworks env.savedEnv2).2)
            else
              ({ success := true, ssid := some ssid,
                 message := "Successfully deleted saved network \x27" ++ ssid ++ "\x27",
                 status := "deleted" },
               cmdIpLinkShowWlan1 :: (getSavedNetworks env.savedEnv).2
                 ++ (getWifiStatus env.statusEnv).2
                 ++ (match (getWifiStatus env.statusEnv).1 with
                     | Except.ok st =>
                       if ((st.adapter.map AdapterStatus.connection) == some ssid) = true then
                         [cmdConnDown true ssid]
                       else []
                     | Except.error _ => [])
                 ++ [cmdConnDelete true ssid] ++ (getSavedNetworks env.savedEnv2).2)
      else
        ({ success := false, ssid := some ssid,
           message := "Network \x27" ++ ssid ++ "\x27 not found in saved networks",
           status := "not_found" },
         cmdIpLinkShowWlan1 :: (getSavedNetworks env.savedEnv).2)
  else
    ({ success := false, ssid := some ssid,
       message := "Deletion failed: wlan1 interface not available. Please ensure wlan1 is properly configured.",
       status := "error" }, [cmdIpLinkShowWlan1])

/-- forget_network (network.py:725-760): validates the guard, delegates to
delete_saved_network (the repeated guard check reads the same
environment), and rewrites message and status. -/
def forgetNetwork (env : DeleteEnv) (ssid : String) : OpResult × List Cmd :=
  if env.wlan1Avail then
    match deleteSavedNetwork env ssid with
    | (r, tr) =>
      (if r.success = true then
         { r with message := "Successfully forgot network \x27" ++ ssid ++ "\x27",
                  status := "forgotten" }
       else
         { r with message := "Failed to forget network \x27" ++ ssid ++ "\x27: " ++ r.message },
       cmdIpLinkShowWlan1 :: tr)
  else
    ({ success := false, ssid := some ssid,
       message := "Forget operation failed: wlan1 interface not available. Please ensure wlan1 is properly configured.",
       status := "error" }, [cmdIpLinkShowWlan1])

/-- The AP status dictionary of get_wlan0_ap_status (network.py:776-892).
The early interface-not-found return (network.py:788-793) carries only the
first four keys; the remaining fields keep their defaults there. -/
structure ApStatus where
  interface_available : Bool
  ap_active : Bool
  status : String
  message : Option String := none
  ip_address : Option String := none
  mode : Option String := none
  clients : List (String × String) := []
  interface_up : Option Bool := none
  hostapd_running : Option Bool := none
deriving DecidableEq, Repr

/-- Environment of one get_wlan0_ap_status call: interface existence and
the four command responses. -/
structure ApEnv where
  wlan0Avail : Bool
  ipAddrShow : Except String String
  pgrep : Except String String
  iwconfig : Except String String
  arp : Except String String
deriving Repr

def cmdIpLinkShowWlan0 : Cmd := ["/sbin/ip", "link", "show", "wlan0"]

def cmdIpAddrShowWlan0 : Cmd := ["/sbin/ip", "addr", "show", "wlan0"]

def cmdPgrepHostapd : Cmd := ["/usr/bin/pgrep", "-f", "hostapd"]

def cmdIwconfigWlan0 : Cmd := ["/sbin/iwconfig", "wlan0"]

def cmdArpTable : Cmd := ["/usr/sbin/arp", "-n"]

def cmdSystemctlStopHostapd : Cmd := ["sudo", "sudo", "systemctl", "stop", "hostapd"]

def cmdPkillHostapd : Cmd := ["sudo", "sudo", "pkill", "-f", "hostapd"]

def cmdSystemctlStartHostapd : Cmd := ["sudo", "sudo", "systemctl", "start", "hostapd"]

def cmdHostapdManual : Cmd := ["sudo", "sudo", "hostapd", "-B", "/etc/hostapd/hostapd.conf"]

/-- One line of the wlan0 address loop (network.py:816-821), which does not
strip the line: some ip when the line sets ip_address and breaks, none when
the loop continues; an IndexError propagates (caught at network.py:823). -/
def apIpLine (line : String) : Except String (Option String) :=
  if containsSub line "inet " && !(containsSub line "inet6") then
    match pyIndex (pySplitOn line "inet ") 1 with
    | Except.error e => Except.error e
    | Except.ok rest =>
      match pyIndex (pySplitWs rest) 0 with
      | Except.error e => Except.error e
      | Except.ok ipPart =>
        if strHasChar ipPart '/' then
          Except.ok (some ((pySplitOn ipPart "/").getD 0 ipPart))
        else Except.ok none
  else Except.ok none

def apFindIp : List String → Except String (Option String)
  | [] => Except.ok none
  | l :: ls =>
    match apIpLine l with
    | Except.error e => Except.error e
    | Except.ok (some ip) => Except.ok (some ip)
    | Except.ok none => apFindIp ls

/-- interface_up from the address dump (network.py:809-813); absent when
the command failed. -/
def apInterfaceUp (env : ApEnv) : Option Bool :=
  match env.ipAddrShow with
  | Except.error _ => none
  | Except.ok out => some (containsSub out "UP")

/-- ip_address from the address dump (network.py:816-821); a mid-loop
IndexError is caught at network.py:823 and leaves it unset. -/
def apIpAddress (env : ApEnv) : Option String :=
  match env.ipAddrShow with
  | Except.error _ => none
  | Except.ok out =>
    match apFindIp (pySplitOn out "\n") with
    | Except.ok ip => ip
    | Except.error _ => none

/-- hostapd_running (network.py:827-838): a failing pgrep (it exits
non-zero when nothing matches) is caught and counts as not running. -/
def apHostapdRunning (env : ApEnv) : Bool :=
  match env.pgrep with
  | Except.ok out => !(pyIsEmpty (pyStrip out))
  | Except.error _ => false

/-- mode from iwconfig (network.py:841-851); absent when the command
failed. -/
def apMode (env : ApEnv) : Option String :=
  match env.iwconfig with
  | Except.error _ => none
  | Except.ok out =>
    if containsSub out "Mode:Master" then some "Master"
    else if containsSub out "Mode:Ad-Hoc" then some "Ad-Hoc"
    else some "Managed"

/-- ap_active after the hostapd and iwconfig checks (network.py:829-846):
set by a running daemon, or by Master mode in the iwconfig output. -/
def apActive (env : ApEnv) : Bool :=
  apHostapdRunning env ||
    (match env.iwconfig with
     | Except.ok out => containsSub out "Mode:Master"
     | Except.error _ => false)

/-- Whether the client scan runs (network.py:855): ap_active and a truthy
(non-empty) ip_address. -/
def apClientsCond (env : ApEnv) : Bool :=
  apActive env &&
    (match apIpAddress env with
     | some ip => !(pyIsEmpty ip)
     | none => false)

/-- client rows from the ARP table (network.py:853-869). -/
def apClients (env : ApEnv) : List (String × String) :=
  if apClientsCond env then
    match env.arp with
    | Except.error _ => []
    | Except.ok out =>
      (pySplitOn out "\n").filterMap (fun line =>
        if !(pyIsEmpty (pyStrip line)) &&
            ((pySplitOn ((apIpAddress env).getD "") ".").take 3 == ["192", "168", "4"]) then
          (if 3 ≤ (pySplitWs line).length &&
              !((pySplitWs line).getD 0 "" == (apIpAddress env).getD "") then
             some ((pySplitWs line).getD 0 "", (pySplitWs line).getD 2 "")
           else none)
        else none)
  else []

/-- get_wlan0_ap_status (network.py:776-892) with issued commands.  The
final status determination (network.py:871-880) overwrites any
intermediate status value. -/
def getWlan0ApStatus (env : ApEnv) : ApStatus × List Cmd :=
  if env.wlan0Avail then
    ({ interface_available := true
       ap_active := apActive env
       status :=
         if apClientsCond env then "working"
         else if !(apActive env) then "inactive"
         else "not_working"
       message :=
         some (if apClientsCond env then "Access Point is working correctly"
               else if !(apActive env) then "Access Point is not active"
               else "Access Point is not working properly")
       ip_address := apIpAddress env
       mode := apMode env
       clients := apClients env
       interface_up := apInterfaceUp env
       hostapd_running := some (apHostapdRunning env) },
     [cmdIpLinkShowWlan0, cmdIpAddrShowWlan0, cmdPgrepHostapd, cmdIwconfigWlan0]
       ++ (if apClientsCond env then [cmdArpTable] else []))
  else
    ({ interface_available := false, ap_active := false, status := "interface_not_found",
       message := some "wlan0 interface not found" }, [cmdIpLinkShowWlan0])

/-- Environment of one hide_wlan0_ap call (network.py:894-963). -/
structure ApToggleEnv where
  pre : ApEnv
  svc : Except String String
  kill : Except String String
  post : ApEnv
deriving Repr

/-- hide_wlan0_ap (network.py:894-963) with issued commands; the service
stop and the process kill are both attempted, each best-effort, and
get_wlan0_ap_status never raises, so the handler at network.py:957 is
unreachable. -/
def hideWlan0Ap (env : ApToggleEnv) : OpResult × List Cmd :=
  match getWlan0ApStatus env.pre with
  | (cur, tr1) =>
    if (!cur.interface_available) = true then
      ({ success := false, message := "wlan0 interface not available",
         status := "interface_not_found" }, tr1)
    else if (!cur.ap_active) = true then
      ({ success := true, message := "Access Point is already hidden/inactive",
         status := "already_hidden" }, tr1)
    else
      match getWlan0ApStatus env.post with
      | (new, tr2) =>
        if (!new.ap_active) = true then
          ({ success := true, message := "Access Point successfully hidden",
             status := "hidden", previous_status := some cur.status },
           tr1 ++ [cmdSystemctlStopHostapd, cmdPkillHostapd] ++ tr2)
        else
          ({ success := false, message := "Failed to hide Access Point",
             status := "still_active" },
           tr1 ++ [cmdSystemctlStopHostapd, cmdPkillHostapd] ++ tr2)

/-- Environment of one show_wlan0_ap call (network.py:965-1036). -/
structure ApShowEnv where
  pre : ApEnv
  svc : Except String String
  confExists : Bool
  manual : Except String String
  post : ApEnv
deriving Repr

/-- show_wlan0_ap (network.py:965-1036) with issued commands; when the
service start fails, the manual hostapd spawn runs only if the config file
exists, and its failure is also swallowed. -/
def showWlan0Ap (env : ApShowEnv) : OpResult × List Cmd :=
  match getWlan0ApStatus env.pre with
  | (cur, tr1) =>
    if (!cur.interface_available) = true then
      ({ success := false, message := "wlan0 interface not available",
         status := "interface_not_found" }, tr1)
    else if cur.ap_active = true then
      ({ success := true, message := "Access Point is already active",
         status := "already_active" }, tr1)
    else
      match getWlan0ApStatus env.post with
      | (new, tr2) =>
        if new.ap_active = true then
          ({ success := true, message := "Access Point successfully started",
             status := "active", previous_status := some cur.status },
           tr1 ++ ([cmdSystemctlStartHostapd]
             ++ (match env.svc with
                 | Except.ok _ => []
                 | Except.error _ => if env.confExists then [cmdHostapdManual] else []))
             ++ tr2)
        else
          ({ success := false, message := "Failed to start Access Point",
             status := "still_inactive" },
           tr1 ++ ([cmdSystemctlStartHostapd]
             ++ (match env.svc with
                 | Except.ok _ => []
                 | Except.error _ => if env.confExists then [cmdHostapdManual] else []))
             ++ tr2)

/-- An AP environment with the interface present, the broadcast daemon not
running (pgrep matches nothing), Master mode reported by iwconfig, and an
IP bound. -/
def apEnvMasterNoDaemon : ApEnv :=
  { wlan0Avail := true
    ipAddrShow := Except.ok "    inet 192.168.4.1/24 brd 192.168.4.255 scope global wlan0"
    pgrep := Except.ok ""
    iwconfig := Except.ok "wlan0     IEEE 802.11  Mode:Master  Tx-Power=31 dBm"
    arp := Except.error "NetworkManager command failed: arp failed" }

/-- Counterexample to C7: the interface is present and the broadcast daemon
is not running, yet the status is working rather than inactive, because
Mode:Master in the iwconfig output also sets ap_active. -/
theorem ap_status_daemon_precedence_counterexample :
    (getWlan0ApStatus apEnvMasterNoDaemon).1.interface_available = true ∧
      (getWlan0ApStatus apEnvMasterNoDaemon).1.hostapd_running = some false ∧
      (getWlan0ApStatus apEnvMasterNoDaemon).1.ap_active = true ∧
      (getWlan0ApStatus apEnvMasterNoDaemon).1.status = "working" ∧
      (getWlan0ApStatus apEnvMasterNoDaemon).1.status ≠ "inactive" :=
  ⟨by decide, by decide, by decide, by decide, by decide⟩

/-- C7 amended: get_wlan0_ap_status classifies by precedence with
ap_active equal to (broadcast daemon running OR radio mode Master): if the
interface is absent the status is interface_not_found regardless of other
signals; if the interface is present and ap_active is false the status is
inactive; if ap_active is true and no (non-empty) IP address is bound the
status is not_working; if ap_active is true and an IP address is bound the
status is working. -/
theorem ap_status_classification (env : ApEnv) :
    ((getWlan0ApStatus env).1.interface_available = false →
      (getWlan0ApStatus env).1.status = "interface_not_found") ∧
    ((getWlan0ApStatus env).1.interface_available = true →
      (getWlan0ApStatus env).1.ap_active = false →
      (getWlan0ApStatus env).1.status = "inactive") ∧
    ((getWlan0ApStatus env).1.interface_available = true →
      (getWlan0ApStatus env).1.ap_active = true →
      ((getWlan0ApStatus env).1.ip_address = none ∨
        (getWlan0ApStatus env).1.ip_address = some "") →
      (getWlan0ApStatus env).1.status = "not_working") ∧
    (∀ ip, (getWlan0ApStatus env).1.interface_available = true →
      (getWlan0ApStatus env).1.ap_active = true →
      (getWlan0ApStatus env).1.ip_address = some ip → pyIsEmpty ip = false →
      (getWlan0ApStatus env).1.status = "working") ∧
    ((getWlan0ApStatus env).1.ap_active = true ↔
      ((getWlan0ApStatus env).1.interface_available = true ∧
        ((getWlan0ApStatus env).1.hostapd_running = some true ∨
          (getWlan0ApStatus env).1.mode = some "Master"))) := by
  have hmode : (match env.iwconfig with
      | Except.ok out => containsSub out "Mode:Master"
      | Except.error _ => false) = true ↔ apMode env = some "Master" := by
    unfold apMode
    cases hiw : env.iwconfig with
    | error e => simp
    | ok out =>
      by_cases hm : containsSub out "Mode:Master" = true
      · simp [hm]
      · rw [Bool.not_eq_true] at hm
        simp only [hm, Bool.false_eq_true, false_iff, if_false]
        split
        · intro hcontra
          exact absurd (Option.some.inj hcontra) (by decide)
        · intro hcontra
          exact absurd (Option.some.inj hcontra) (by decide)
  cases hw : env.wlan0Avail with
  | false => simp [getWlan0ApStatus, hw]
  | true =>
    refine ⟨?_, ?_, ?_, ?_, ?_⟩
    · intro hfa
      simp [getWlan0ApStatus, hw] at hfa
    · intro _ hact
      have ha : apActive env = false := by simpa [getWlan0ApStatus, hw] using hact
      have hcond : apClientsCond env = false := by
        unfold apClientsCond
        rw [ha]
        rfl
      simp [getWlan0ApStatus, hw, hcond, ha]
    · intro _ hact hip
      have ha : apActive env = true := by simpa [getWlan0ApStatus, hw] using hact
      have hipv : apIpAddress env = none ∨ apIpAddress env = some "" := by
        rcases hip with h | h
        · exact Or.inl (by simpa [getWlan0ApStatus, hw] using h)
        · exact Or.inr (by simpa [getWlan0ApStatus, hw] using h)
      have hcond : apClientsCond env = false := by
        unfold apClientsCond
        rcases hipv with h | h <;> rw [h]
        · simp
        · simp [show pyIsEmpty "" = true from rfl]
      simp [getWlan0ApStatus, hw, hcond, ha]
    · intro ip _ hact hip hne
      have ha : apActive env = true := by simpa [getWlan0ApStatus, hw] using hact
      have hipv : apIpAddress env = some ip := by simpa [getWlan0ApStatus, hw] using hip
      have hcond : apClientsCond env = true := by
        unfold apClientsCond
        rw [hipv, ha]
        simp [hne]
      simp [getWlan0ApStatus, hw, hcond]
    · constructor
      · intro hact
        have ha : apActive env = true := by simpa [getWlan0ApStatus, hw] using hact
        refine ⟨by simp [getWlan0ApStatus, hw], ?_⟩
        unfold apActive at ha
        cases hh : apHostapdRunning env with
        | true => exact Or.inl (by simp [getWlan0ApStatus, hw, hh])
        | false =>
          rw [hh] at ha
          simp only [Bool.false_or] at ha
          right
          have hm2 : apMode env = some "Master" := hmode.mp ha
          simpa [getWlan0ApStatus, hw] using hm2
      · rintro ⟨-, h | h⟩
        · have hh : apHostapdRunning env = true := by
            simpa [getWlan0ApStatus, hw] using h
          show (getWlan0ApStatus env).1.ap_active = true
          simp [getWlan0ApStatus, hw, apActive, hh]
        · have hm2 : apMode env = some "Master" := by
            simpa [getWlan0ApStatus, hw] using h
          have hmb := hmode.mpr hm2
          show (getWlan0ApStatus env).1.ap_active = true
          simp [getWlan0ApStatus, hw, apActive, hmb]

/-- Witness for the amended C7: the inactive classification at a concrete
environment with the daemon stopped and Managed mode, and the working
classification at the Master-mode environment. -/
theorem ap_status_classification_witness :
    (getWlan0ApStatus
      { wlan0Avail := true
        ipAddrShow := Except.error "NetworkManager command timeout"
        pgrep := Except.ok ""
        iwconfig := Except.ok "wlan0     IEEE 802.11  Mode:Managed"
        arp := Except.error "NetworkManager command failed: arp failed" }).1.status
        = "inactive" ∧
      (getWlan0ApStatus apEnvMasterNoDaemon).1.status = "working" :=
  ⟨(ap_status_classification _).2.1 (by decide) (by decide),
   (ap_status_classification apEnvMasterNoDaemon).2.2.2.1 "192.168.4.1" (by decide) (by decide)
     (by decide) (by decide)⟩

lemma verifyConnect_success_status (ssid : String) (st : StatusInfo)
    (h : (verifyConnect ssid st).success = true) :
    (verifyConnect ssid st).status = "connected" := by
  unfold verifyConnect at h ⊢
  by_cases hc : ((st.adapter.map AdapterStatus.connection) == some ssid ||
      st.currentSsid == some ssid) = true
  · rw [if_pos hc]
  · rw [if_neg hc] at h
    exact absurd h Bool.false_ne_true

lemma connectVerifyStage_success_status (env : ConnectEnv) (ssid : String) :
    (connectVerifyStage env ssid).1.success = true →
    (connectVerifyStage env ssid).1.status = "connected" := by
  unfold connectVerifyStage
  rcases hg : getWifiStatus env.statusEnv with ⟨res, tr⟩
  cases res with
  | ok st => exact fun h => verifyConnect_success_status ssid st h
  | error e => exact fun h => absurd h Bool.false_ne_true

lemma connect_success_status (env : ConnectEnv) (ssid : String) (pw : Option String) :
    (connectToNetwork env ssid pw).1.success = true →
    (connectToNetwork env ssid pw).1.status = "connected" := by
  unfold connectToNetwork
  cases hw : env.wlan1Avail with
  | false => simp [connectErrorResult]
  | true =>
    rcases hv : getVisibleNetworksT env.scan with ⟨res, tr⟩
    cases res with
    | error e => simp [connectErrorResult]
    | ok networks =>
      by_cases hn : (networks.any fun n => n.ssid == ssid) = true
      · simp only [hn, if_true]
        have hs := connectVerifyStage_success_status env ssid
        rcases hvv : connectVerifyStage env ssid with ⟨r, trv⟩
        rw [hvv] at hs
        cases pw with
        | none =>
          cases hd : env.direct with
          | error e => simp [connectErrorResult]
          | ok v => exact fun h => hs h
        | some pwv =>
          cases hd : env.direct with
          | ok v => exact fun h => hs h
          | error e1 =>
            cases ha : env.manualAdd with
            | error e2 => simp [connectErrorResult]
            | ok va =>
              cases hm : env.manualModify with
              | error e2 => simp [connectErrorResult]
              | ok vm =>
                cases hu : env.manualUp with
                | error e2 => simp [connectErrorResult]
                | ok vu => exact fun h => hs h
      · simp only [if_neg hn]
        simp [connectErrorResult]

lemma disconnect_success_status (env : DisconnectEnv) :
    (disconnectNetwork env).1.success = true →
    (disconnectNetwork env).1.status = "disconnected" := by
  unfold disconnectNetwork
  cases hw : env.wlan1Avail with
  | false =>
    try simp only [hw]
    simp
  | true =>
    try simp only [hw]
    rcases hg : getWifiStatus env.statusEnv with ⟨res, tr⟩
    try simp only [hg]
    cases res with
    | error e => simp
    | ok st =>
      rcases hcc : st.adapter.map AdapterStatus.connection with _ | cur
      · try simp only [hcc]
        exact fun _ => rfl
      · try simp only [hcc]
        by_cases hf : (pyIsEmpty cur || cur == "none") = true
        · simp only [if_pos hf]
          exact fun _ => rfl
        · simp only [if_neg hf]
          cases hd : env.down with
          | error e =>
            try simp only [hd]
            simp
          | ok v =>
            try simp only [hd]
            rcases hg2 : getWifiStatus env.statusEnv2 with ⟨res2, tr2⟩
            try simp only [hg2]
            cases res2 with
            | error e => simp
            | ok st2 =>
              by_cases h2 : ((st2.adapter.map AdapterStatus.connection) == some "none") = true
              · simp only [if_pos h2]
                exact fun _ => rfl
              · simp only [if_neg h2]
                simp

lemma delete_success_status (env : DeleteEnv) (ssid : String) :
    (deleteSavedNetwork env ssid).1.success = true →
    (deleteSavedNetwork env ssid).1.status = "deleted" := by
  unfold deleteSavedNetwork
  cases hw : env.wlan1Avail with
  | false =>
    try simp only [hw]
    simp
  | true =>
    try simp only [hw]
    rcases hs : (getSavedNetworks env.savedEnv).1 with e | saved
    · try simp only [hs]
      simp
    · try simp only [hs]
      by_cases hn : (saved.any fun n => n.name == ssid) = true
      · simp only [if_pos hn]
        cases hd : env.delete with
        | error e =>
          try simp only [hd]
          simp
        | ok v =>
          try simp only [hd]
          rcases hs2 : (getSavedNetworks env.savedEnv2).1 with e | updated
          · try simp only [hs2]
            simp
          · try simp only [hs2]
            by_cases hn2 : (updated.any fun n => n.name == ssid) = true
            · simp only [if_pos hn2]
              simp
            · simp only [if_neg hn2]
              exact fun _ => rfl
      · simp only [if_neg hn]
        simp

lemma forget_success_status (env : DeleteEnv) (ssid : String) :
    (forgetNetwork env ssid).1.success = true →
    (forgetNetwork env ssid).1.status = "forgotten" := by
  unfold forgetNetwork
  cases hw : env.wlan1Avail with
  | false =>
    try simp only [hw]
    simp
  | true =>
    try simp only [hw]
    rcases hd : deleteSavedNetwork env ssid with ⟨r, tr⟩
    try simp only [hd]
    by_cases hrs : r.success = true
    · simp only [if_pos hrs]
      exact fun _ => rfl
    · simp only [if_neg hrs]
      exact fun h => absurd h hrs

lemma hide_success_status (env : ApToggleEnv) :
    (hideWlan0Ap env).1.success = true →
    ((hideWlan0Ap env).1.status = "already_hidden" ∨
      (hideWlan0Ap env).1.status = "hidden") := by
  unfold hideWlan0Ap
  rcases h1 : getWlan0ApStatus env.pre with ⟨cur, tr1⟩
  try simp only [h1]
  by_cases hi : (!cur.interface_available) = true
  · simp only [if_pos hi]
    simp
  · simp only [if_neg hi]
    by_cases ha : (!cur.ap_active) = true
    · simp only [if_pos ha]
      exact fun _ => Or.inl trivial
    · simp only [if_neg ha]
      rcases h2 : getWlan0ApStatus env.post with ⟨new, tr2⟩
      try simp only [h2]
      by_cases hn : (!new.ap_active) = true
      · simp only [if_pos hn]
        exact fun _ => Or.inr trivial
      · simp only [if_neg hn]
        simp

lemma show_success_status (env : ApShowEnv) :
    (showWlan0Ap env).1.success = true →
    ((showWlan0Ap env).1.status = "already_active" ∨
      (showWlan0Ap env).1.status = "active") := by
  unfold showWlan0Ap
  rcases h1 : getWlan0ApStatus env.pre with ⟨cur, tr1⟩
  try simp only [h1]
  by_cases hi : (!cur.interface_available) = true
  · simp only [if_pos hi]
    simp
  · simp only [if_neg hi]
    by_cases ha : cur.ap_active = true
    · simp only [if_pos ha]
      exact fun _ => Or.inl trivial
    · simp only [if_neg ha]
      rcases h2 : getWlan0ApStatus env.post with ⟨new, tr2⟩
      try simp only [h2]
      by_cases hn : new.ap_active = true
      · simp only [if_pos hn]
        exact fun _ => Or.inr trivial
      · simp only [if_neg hn]
        simp

/-- The status values listed by the claim as allowed when success is true
(the ConnectionOutcome enum of the spec). -/
def claimedSuccessStatuses : List String :=
  ["connected", "disconnected", "deleted", "forgotten", "already_hidden", "already_active",
   "connecting", "not_found", "error", "still_active", "still_inactive"]

/-- An AP environment in which only the broadcast daemon signal is
positive. -/
def apEnvDaemonOnly : ApEnv :=
  { wlan0Avail := true
    ipAddrShow := Except.error "NetworkManager command timeout"
    pgrep := Except.ok "1234"
    iwconfig := Except.error "NetworkManager command failed: iwconfig failed"
    arp := Except.error "NetworkManager command failed: arp failed" }

/-- An AP environment with the interface present and every activity signal
negative. -/
def apEnvIdle : ApEnv :=
  { wlan0Avail := true
    ipAddrShow := Except.error "NetworkManager command timeout"
    pgrep := Except.ok ""
    iwconfig := Except.error "NetworkManager command failed: iwconfig failed"
    arp := Except.error "NetworkManager command failed: arp failed" }

/-- A hide call on an active AP whose re-poll shows it stopped. -/
def apToggleEnvHide : ApToggleEnv :=
  { pre := apEnvDaemonOnly
    svc := Except.ok ""
    kill := Except.ok ""
    post := apEnvIdle }

/-- Counterexample to C3: hiding an active AP succeeds with status hidden,
which is not among the statuses the claim allows for a successful
outcome (and the same holds for the status active of show_wlan0_ap). -/
theorem success_status_counterexample :
    (hideWlan0Ap apToggleEnvHide).1.success = true ∧
      (hideWlan0Ap apToggleEnvHide).1.status = "hidden" ∧
      claimedSuccessStatuses.contains (hideWlan0Ap apToggleEnvHide).1.status = false :=
  ⟨by decide, by decide, by decide⟩

/-- C3 amended: for every operation, success true implies the status is the
operation's own terminal positive value: connected for connect,
disconnected for disconnect, deleted for delete-saved, forgotten for
forget, already_hidden or hidden for AP hide, already_active or active for
AP show. -/
theorem success_implies_operation_status
    (ce : ConnectEnv) (ssid1 : String) (pw : Option String) (de : DisconnectEnv)
    (dle : DeleteEnv) (ssid2 : String) (fe : DeleteEnv) (ssid3 : String)
    (he : ApToggleEnv) (se : ApShowEnv) :
    ((connectToNetwork ce ssid1 pw).1.success = true →
      (connectToNetwork ce ssid1 pw).1.status = "connected") ∧
    ((disconnectNetwork de).1.success = true →
      (disconnectNetwork de).1.status = "disconnected") ∧
    ((deleteSavedNetwork dle ssid2).1.success = true →
      (deleteSavedNetwork dle ssid2).1.status = "deleted") ∧
    ((forgetNetwork fe ssid3).1.success = true →
      (forgetNetwork fe ssid3).1.status = "forgotten") ∧
    ((hideWlan0Ap he).1.success = true →
      ((hideWlan0Ap he).1.status = "already_hidden" ∨
        (hideWlan0Ap he).1.status = "hidden")) ∧
    ((showWlan0Ap se).1.success = true →
      ((showWlan0Ap se).1.status = "already_active" ∨
        (showWlan0Ap se).1.status = "active")) :=
  ⟨connect_success_status ce ssid1 pw, disconnect_success_status de,
   delete_success_status dle ssid2, forget_success_status fe ssid3,
   hide_success_status he, show_success_status se⟩

/-- A show call on an already active AP. -/
def apShowEnvAlready : ApShowEnv :=
  { pre := apEnvDaemonOnly
    svc := Except.ok ""
    confExists := false
    manual := Except.error "NetworkManager command failed: hostapd failed"
    post := apEnvDaemonOnly }

/-- A delete environment whose saved list does not contain the target. -/
def deleteEnvMissing : DeleteEnv :=
  { wlan1Avail := true
    savedEnv := { wlan1Avail := true, connShow := Except.ok "" }
    statusEnv := statusEnvAllFail
    down := Except.error "NetworkManager command failed: no connection"
    delete := Except.error "NetworkManager command failed: delete failed"
    savedEnv2 := { wlan1Avail := true, connShow := Except.ok "" } }

/-- Witness for the amended C3 at concrete environments whose outcomes
succeed: the idle disconnect, the hide of an active AP, and the show of an
already active AP. -/
theorem success_implies_operation_status_witness :
    (disconnectNetwork disconnectEnvIdle).1.status = "disconnected" ∧
      ((hideWlan0Ap apToggleEnvHide).1.status = "already_hidden" ∨
        (hideWlan0Ap apToggleEnvHide).1.status = "hidden") ∧
      ((showWlan0Ap apShowEnvAlready).1.status = "already_active" ∨
        (showWlan0Ap apShowEnvAlready).1.status = "active") :=
  ⟨(success_implies_operation_status connectEnvBase "NoSuchNetwork" none disconnectEnvIdle
      deleteEnvMissing "NoSuchNetwork" deleteEnvMissing "NoSuchNetwork" apToggleEnvHide
      apShowEnvAlready).2.1 (by decide),
   (success_implies_operation_status connectEnvBase "NoSuchNetwork" none disconnectEnvIdle
      deleteEnvMissing "NoSuchNetwork" deleteEnvMissing "NoSuchNetwork" apToggleEnvHide
      apShowEnvAlready).2.2.2.2.1 (by decide),
   (success_implies_operation_status connectEnvBase "NoSuchNetwork" none disconnectEnvIdle
      deleteEnvMissing "NoSuchNetwork" deleteEnvMissing "NoSuchNetwork" apToggleEnvHide
      apShowEnvAlready).2.2.2.2.2 (by decide)⟩
